import Mathlib

/-!
Shallow embedding of the `ai-discharge-instructions` backend
(`backend/app/services/patient_service.py`, `patient_history_service.py`,
`enhanced_ai_service.py`, `ai_agent.py`, and the HTTP handlers in
`backend/app/api/endpoints.py` and `patient_history_endpoints.py`),
together with proofs about the embedded operations.

Conventions used throughout:
* the SQLAlchemy session is modelled as an explicit database value (lists of
  rows); `query(...).filter(...).first()` becomes `List.find?`;
* a Python function that can raise returns `Except String α` (or the
  embedding returns the post-state next to the result, so that the rollback
  performed in the `except` blocks is visible as "state unchanged");
* Python floats in the confidence / temperature arithmetic are modelled as
  exact rationals (`ℚ`);
* `datetime` values are opaque and modelled as `Nat` timestamps (a Python
  `datetime` object is always truthy);
* Python truthiness of optional strings (`if visit_data.status:`) is
  `isSome` together with non-emptiness.
-/

set_option maxRecDepth 8000

/-! ### Data rows (backend/app/models/patient.py)

Only the columns that the verified operations read or write are kept;
the remaining payload columns (JSON blobs, timestamps, …) do not influence
any of the control flow below. -/

structure Patient where
  patient_id : String
  first_name : String
  last_name : String
deriving DecidableEq, Repr

structure MedicalRecord where
  id : Nat
  patient_id : String
  primary_diagnosis : String
deriving DecidableEq, Repr

structure DischargeNote where
  id : Nat
  patient_id : String
  medical_record_id : Nat
  discharge_summary : String
deriving DecidableEq, Repr

structure PatientCreate where
  patient_id : String
  first_name : String
  last_name : String
deriving DecidableEq, Repr

structure MedicalRecordCreate where
  patient_id : String
  primary_diagnosis : String
deriving DecidableEq, Repr

structure DischargeNoteCreate where
  patient_id : String
  medical_record_id : Nat
  discharge_summary : String
deriving DecidableEq, Repr

/-- The database state seen by `PatientService`: the three tables plus the
autoincrement counters for the integer primary keys. -/
structure DB where
  patients : List Patient
  records : List MedicalRecord
  notes : List DischargeNote
  nextRecordId : Nat
  nextNoteId : Nat
deriving DecidableEq, Repr

def emptyDB : DB := ⟨[], [], [], 0, 0⟩

/-! ### PatientService (backend/app/services/patient_service.py) -/

/-- `PatientService.get_patient_by_id`: `query(Patient).filter(...).first()`. -/
def get_patient_by_id (db : DB) (patient_id : String) : Option Patient :=
  db.patients.find? (fun p => p.patient_id == patient_id)

/-- `PatientService.get_medical_record_by_id`. -/
def get_medical_record_by_id (db : DB) (record_id : Nat) : Option MedicalRecord :=
  db.records.find? (fun r => r.id == record_id)

/-- `PatientService.create_patient` (lines 16-59).  The duplicate check is
performed before the row is added; on the error path the `except` block rolls
the session back, so the state handed back is the original one. -/
def create_patient (db : DB) (pd : PatientCreate) : Except String Patient × DB :=
  match db.patients.find? (fun p => p.patient_id == pd.patient_id) with
  | some _ =>
      (Except.error ("Patient with ID " ++ pd.patient_id ++ " already exists"), db)
  | none =>
      let row : Patient := ⟨pd.patient_id, pd.first_name, pd.last_name⟩
      (Except.ok row, { db with patients := db.patients ++ [row] })

/-- `PatientService.create_medical_record` (lines 91-126): the patient must
exist, then the row is inserted with a fresh autoincrement id. -/
def create_medical_record (db : DB) (rd : MedicalRecordCreate) :
    Except String MedicalRecord × DB :=
  match get_patient_by_id db rd.patient_id with
  | none =>
      (Except.error ("Patient with ID " ++ rd.patient_id ++ " not found"), db)
  | some _ =>
      let row : MedicalRecord := ⟨db.nextRecordId, rd.patient_id, rd.primary_diagnosis⟩
      (Except.ok row,
        { db with records := db.records ++ [row], nextRecordId := db.nextRecordId + 1 })

/-- `PatientService.create_discharge_note` (lines 138-172): the patient must
exist and the referenced medical record must exist and belong to the declared
patient. -/
def create_discharge_note (db : DB) (nd : DischargeNoteCreate) :
    Except String DischargeNote × DB :=
  match get_patient_by_id db nd.patient_id with
  | none =>
      (Except.error ("Patient with ID " ++ nd.patient_id ++ " not found"), db)
  | some _ =>
      match get_medical_record_by_id db nd.medical_record_id with
      | none =>
          (Except.error ("Medical record not found for patient " ++ nd.patient_id), db)
      | some mr =>
          if mr.patient_id ≠ nd.patient_id then
            (Except.error ("Medical record not found for patient " ++ nd.patient_id), db)
          else
            let row : DischargeNote :=
              ⟨db.nextNoteId, nd.patient_id, nd.medical_record_id, nd.discharge_summary⟩
            (Except.ok row,
              { db with notes := db.notes ++ [row], nextNoteId := db.nextNoteId + 1 })

/-- States reachable from the empty database through the three creation
operations of `PatientService` (each step keeps the post-state whether the
call succeeded or raised). -/
inductive Reachable : DB → Prop where
  | init : Reachable emptyDB
  | step_patient {db : DB} (pd : PatientCreate) :
      Reachable db → Reachable (create_patient db pd).2
  | step_record {db : DB} (rd : MedicalRecordCreate) :
      Reachable db → Reachable (create_medical_record db rd).2
  | step_note {db : DB} (nd : DischargeNoteCreate) :
      Reachable db → Reachable (create_discharge_note db nd).2

/-- The referential invariants of §3 of the spec: every medical record
references an existing patient, and every discharge note's medical record
belongs to the note's declared patient. -/
def DbInv (db : DB) : Prop :=
  (∀ r ∈ db.records, ∃ p ∈ db.patients, p.patient_id = r.patient_id) ∧
  (∀ n ∈ db.notes, ∃ r ∈ db.records,
      r.id = n.medical_record_id ∧ r.patient_id = n.patient_id)

/-! ### PatientHistoryService.update_visit
(backend/app/services/patient_history_service.py, lines 100-164, with the
row types from backend/app/models/patient_history.py) -/

structure PatientVisit where
  id : Nat
  patient_id : String
  visit_number : String
  status : String
  discharge_date : Option Nat
  discharge_disposition : Option String
  visit_summary : Option String
  attending_physician : Option String
  updated_at : Nat
deriving DecidableEq, Repr

/-- `PatientVisitUpdate` (all fields optional). -/
structure PatientVisitUpdate where
  discharge_date : Option Nat
  status : Option String
  visit_summary : Option String
  discharge_disposition : Option String
  attending_physician : Option String
deriving DecidableEq, Repr

structure PatientActivity where
  patient_id : String
  activity_type : String
  description : String
deriving DecidableEq, Repr

/-- Python truthiness of an `Optional[str]` field (`None` and `""` are falsy). -/
def truthyStr : Option String → Bool
  | none => false
  | some s => s ≠ ""

/-- Python truthiness of an `Optional[datetime]` field (`datetime` objects are
always truthy). -/
def truthyDate (d : Option Nat) : Bool := d.isSome

/-- The sequence of guarded field writes in `update_visit` applied to the
fetched visit row (lines 107-143).  Returns the mutated row together with the
keys collected in the `updates` dict and the discharge activity logged inside
the discharge branch. -/
def applyVisitUpdate (v : PatientVisit) (u : PatientVisitUpdate) (now : Nat) :
    PatientVisit × List String × List PatientActivity :=
  let step1 :=
    if truthyDate u.discharge_date && !(truthyDate v.discharge_date) then
      ({ v with discharge_date := u.discharge_date, status := "discharged" },
       ["discharge_date"],
       [⟨v.patient_id, "discharge",
         "Patient discharged from visit " ++ v.visit_number⟩])
    else (v, [], [])
  let (v1, ks1, acts1) := step1
  let (v2, ks2) :=
    if truthyStr u.status then
      ({ v1 with status := u.status.getD v1.status }, ks1 ++ ["status"])
    else (v1, ks1)
  let (v3, ks3) :=
    if truthyStr u.visit_summary then
      ({ v2 with visit_summary := u.visit_summary }, ks2 ++ ["visit_summary"])
    else (v2, ks2)
  let (v4, ks4) :=
    if truthyStr u.discharge_disposition then
      ({ v3 with discharge_disposition := u.discharge_disposition },
       ks3 ++ ["discharge_disposition"])
    else (v3, ks3)
  let (v5, ks5) :=
    if truthyStr u.attending_physician then
      ({ v4 with attending_physician := u.attending_physician },
       ks4 ++ ["attending_physician"])
    else (v4, ks4)
  ({ v5 with updated_at := now }, ks5, acts1)

/-- Replace the first row matching the predicate (the SQLAlchemy object
returned by `.first()` is mutated in place). -/
def replaceFirst (p : PatientVisit → Bool) (v' : PatientVisit) :
    List PatientVisit → List PatientVisit
  | [] => []
  | v :: vs => if p v then v' :: vs else v :: replaceFirst p v' vs

/-- `PatientHistoryService.update_visit` over a state of visit rows and
activity rows.  Returns the value the Python method returns (`None` when the
visit id is unknown) together with the post-state. -/
def update_visit (visits : List PatientVisit) (acts : List PatientActivity)
    (visit_id : Nat) (u : PatientVisitUpdate) (now : Nat) :
    Option PatientVisit × List PatientVisit × List PatientActivity :=
  match visits.find? (fun v => v.id == visit_id) with
  | none => (none, visits, acts)
  | some v =>
      let (v', updateKeys, dischargeActs) := applyVisitUpdate v u now
      let acts' := acts ++ dischargeActs
      let acts'' :=
        if updateKeys ≠ [] then
          acts' ++ [⟨v.patient_id, "update", "Visit " ++ v.visit_number ++ " updated"⟩]
        else acts'
      (some v', replaceFirst (fun w => w.id == visit_id) v' visits, acts'')

/-! ### A backtracking matcher for the PII regexes
(backend/app/services/enhanced_ai_service.py, lines 43-49 and 70-86)

The five patterns use only: character-class repetitions `{n}`, `{n,m}`, `+`,
`{2,}`, optional single characters `?`, literal characters, an alternation of
literal words, and the word-boundary anchor `\b`.  The matcher below
implements exactly Python `re` semantics for this fragment: at a given start
position alternatives are tried left to right and greedy repetitions longest
first, and the first (leftmost) overall success is the match `re.sub` uses.
None of the five patterns can match the empty string (each requires at least
one digit or letter), so `re.sub` replaces non-overlapping non-empty matches
scanning left to right. -/

/-- One token of a (micro) regular expression.
`cls p lo hi` is a greedy repetition of the character class `p` with at least
`lo` and at most `hi` repetitions (`none` = unbounded); `lit cs` a literal
character sequence; `alt ws` an alternation of literal words tried left to
right; `wb` the `\b` anchor. -/
inductive RTok where
  | cls (p : Char → Bool) (lo : Nat) (hi : Option Nat)
  | lit (cs : List Char)
  | alt (ws : List (List Char))
  | wb

/-- Python `re` word characters (`\w`), ASCII fragment. -/
def isWordChar (c : Char) : Bool := c.isAlphanum || c == '_'

/-- Is there a `\b` boundary between the character before the position and the
character at the position (absent characters count as non-word)? -/
def isBoundary (prev next : Option Char) : Bool :=
  (match prev with | some c => isWordChar c | none => false)
    != (match next with | some c => isWordChar c | none => false)

/-- Length of the maximal prefix of `s` made of characters in class `p`. -/
def npSat (p : Char → Bool) : List Char → Nat
  | [] => 0
  | c :: cs => if p c then npSat p cs + 1 else 0

/-- Character preceding the current position after consuming `consumed`
(`prev` if nothing was consumed). -/
def prevAfter (consumed : List Char) (prev : Option Char) : Option Char :=
  match consumed.getLast? with
  | some c => some c
  | none => prev

/-- Match a token list against a prefix of `s`, where `prev` is the character
just before `s` in the subject string.  Returns the number of characters
consumed by the first match in Python's backtracking order, or `none`. -/
def matchToks : List RTok → List Char → Option Char → Option Nat
  | [], _, _ => some 0
  | RTok.wb :: rest, s, prev =>
      if isBoundary prev s.head? then matchToks rest s prev else none
  | RTok.lit cs :: rest, s, prev =>
      if cs.isPrefixOf s then
        (matchToks rest (s.drop cs.length) (prevAfter cs prev)).map (cs.length + ·)
      else none
  | RTok.alt ws :: rest, s, prev =>
      ws.findSome? (fun w =>
        if w.isPrefixOf s then
          (matchToks rest (s.drop w.length) (prevAfter w prev)).map (w.length + ·)
        else none)
  | RTok.cls p lo hi :: rest, s, prev =>
      let mx := min (npSat p s) (hi.getD s.length)
      ((List.range (mx + 1)).map (fun i => mx - i)).findSome? (fun k =>
        if lo ≤ k then
          (matchToks rest (s.drop k) (prevAfter (s.take k) prev)).map (k + ·)
        else none)

/-- The scanning loop of `re.sub`: at each position try the pattern; on a
(non-empty) match emit the replacement and resume after the match, otherwise
keep the character.  The fuel is the length of the subject, which suffices
because every step consumes at least one character. -/
def subScan (re : List RTok) (repl : List Char) :
    Nat → Option Char → List Char → List Char
  | 0, _, s => s
  | _ + 1, _, [] => []
  | fuel + 1, prev, c :: rest =>
      match matchToks re (c :: rest) prev with
      | some (n + 1) =>
          repl ++ subScan re repl fuel (prevAfter ((c :: rest).take (n + 1)) prev)
            ((c :: rest).drop (n + 1))
      | _ => c :: subScan re repl fuel (some c) rest

/-- `re.sub(pattern, repl, text)` for the pattern fragment above. -/
def reSub (re : List RTok) (repl : List Char) (s : List Char) : List Char :=
  subScan re repl s.length none s

/-- Python `str.isdigit`-style `\d`, ASCII fragment. -/
def isDigitC (c : Char) : Bool := c.isDigit

/-- Python `\s`, ASCII fragment. -/
def isSpaceC (c : Char) : Bool :=
  c == ' ' || c == '\t' || c == '\n' || c == '\r' || c == '\x0b' || c == '\x0c'

/-- `'ssn': r'\b\d{3}-?\d{2}-?\d{4}\b'` -/
def ssnRe : List RTok :=
  [RTok.wb, RTok.cls isDigitC 3 (some 3), RTok.cls (· == '-') 0 (some 1),
   RTok.cls isDigitC 2 (some 2), RTok.cls (· == '-') 0 (some 1),
   RTok.cls isDigitC 4 (some 4), RTok.wb]

/-- `'phone': r'\b\d{3}[-.]?\d{3}[-.]?\d{4}\b'` -/
def phoneRe : List RTok :=
  [RTok.wb, RTok.cls isDigitC 3 (some 3), RTok.cls (fun c => c == '-' || c == '.') 0 (some 1),
   RTok.cls isDigitC 3 (some 3), RTok.cls (fun c => c == '-' || c == '.') 0 (some 1),
   RTok.cls isDigitC 4 (some 4), RTok.wb]

/-- The class `[A-Za-z0-9._%+-]` of the email local part. -/
def emailLocalC (c : Char) : Bool :=
  c.isAlphanum || c == '.' || c == '_' || c == '%' || c == '+' || c == '-'

/-- The class `[A-Za-z0-9.-]` of the email domain. -/
def emailDomainC (c : Char) : Bool := c.isAlphanum || c == '.' || c == '-'

/-- The class `[A-Z|a-z]` of the email top-level domain (the literal pattern
includes the pipe character). -/
def emailTldC (c : Char) : Bool := c.isAlpha || c == '|'

/-- `'email': r'\b[A-Za-z0-9._%+-]+@[A-Za-z0-9.-]+\.[A-Z|a-z]{2,}\b'` -/
def emailRe : List RTok :=
  [RTok.wb, RTok.cls emailLocalC 1 none, RTok.lit ['@'],
   RTok.cls emailDomainC 1 none, RTok.lit ['.'], RTok.cls emailTldC 2 none, RTok.wb]

/-- `'credit_card': r'\b\d{4}[-\s]?\d{4}[-\s]?\d{4}[-\s]?\d{4}\b'` -/
def creditCardRe : List RTok :=
  [RTok.wb, RTok.cls isDigitC 4 (some 4), RTok.cls (fun c => c == '-' || isSpaceC c) 0 (some 1),
   RTok.cls isDigitC 4 (some 4), RTok.cls (fun c => c == '-' || isSpaceC c) 0 (some 1),
   RTok.cls isDigitC 4 (some 4), RTok.cls (fun c => c == '-' || isSpaceC c) 0 (some 1),
   RTok.cls isDigitC 4 (some 4), RTok.wb]

/-- The suffix words of the street-address pattern, in source order. -/
def addressWords : List (List Char) :=
  ["Street".data, "St".data, "Avenue".data, "Ave".data, "Road".data, "Rd".data,
   "Boulevard".data, "Blvd".data, "Lane".data, "Ln".data, "Drive".data, "Dr".data,
   "Court".data, "Ct".data, "Place".data, "Pl".data]

/-- `'address_number': r'\b\d{1,5}\s+[A-Za-z0-9\s]+(?:Street|St|...|Pl)\b'` -/
def addressRe : List RTok :=
  [RTok.wb, RTok.cls isDigitC 1 (some 5), RTok.cls isSpaceC 1 none,
   RTok.cls (fun c => c.isAlphanum || isSpaceC c) 1 none,
   RTok.alt addressWords, RTok.wb]

/-- The `pii_patterns` dict with the replacement chosen for each key in
`sanitize_pii`, in dict insertion order. -/
def piiRules : List (List RTok × List Char) :=
  [(ssnRe, "XXX-XX-XXXX".data),
   (phoneRe, "XXX-XXX-XXXX".data),
   (emailRe, "[EMAIL_REDACTED]".data),
   (creditCardRe, "XXXX-XXXX-XXXX-XXXX".data),
   (addressRe, "[ADDRESS_REDACTED]".data)]

/-- `EnhancedAIService.sanitize_pii` (lines 70-86): the five substitutions
applied in sequence. -/
def sanitize_pii (t : List Char) : List Char :=
  piiRules.foldl (fun acc r => reSub r.1 r.2 acc) t

/-- `true` when the pattern matches at no scan position of `s` (with the scan
threading the preceding character exactly as `subScan` does). -/
def hasMatch (re : List RTok) : Nat → Option Char → List Char → Bool
  | 0, _, _ => false
  | _ + 1, _, [] => false
  | fuel + 1, prev, c :: rest =>
      (matchToks re (c :: rest) prev).isSome || hasMatch re fuel (some c) rest

/-- Whether one of the five PII patterns matches somewhere in `t`. -/
def anyPiiMatch (t : List Char) : Bool :=
  piiRules.any (fun r => hasMatch r.1 t.length none t)

/-! ### EnhancedAIService.validate_medical_response and _calculate_confidence
(backend/app/services/enhanced_ai_service.py, lines 163-198 and 354-370) -/

/-- Python `needle in hay` on strings (substring containment). -/
def containsSub (needle : List Char) : List Char → Bool
  | [] => needle.isEmpty
  | c :: rest => needle.isPrefixOf (c :: rest) || containsSub needle rest

/-- Python `str.lower`, ASCII fragment (all the scanned phrases are ASCII). -/
def pyLower (s : String) : String := String.mk (s.data.map Char.toLower)

/-- Substring test used by the scans: `phrase in response.lower()`. -/
def occursIn (response phrase : String) : Bool :=
  containsSub phrase.data (pyLower response).data

def dangerous_phrases : List String :=
  ["stop taking medication",
   "don't need to see doctor",
   "ignore symptoms",
   "self-medicate",
   "home remedy instead"]

def specific_claims : List String :=
  ["will cure",
   "guaranteed to work",
   "never causes side effects",
   "100% safe",
   "no need for follow-up"]

def safetyDisclaimer : String :=
  "\n\n⚠️ IMPORTANT: This information is for educational purposes only. Always consult your healthcare provider for personalized medical advice."

/-- `EnhancedAIService.validate_medical_response` (lines 163-198): collect one
flag per dangerous phrase / overconfident claim found (case-insensitively) in
the response, and append the disclaimer when any flag was raised. -/
def validate_medical_response (response : String) : String × List String :=
  let flags := dangerous_phrases.foldl
    (fun acc p => if occursIn response p then acc ++ ["potentially_dangerous_advice: " ++ p] else acc) []
  let flags := specific_claims.foldl
    (fun acc p => if occursIn response p then acc ++ ["overconfident_claim: " ++ p] else acc) flags
  let response := if flags ≠ [] then response ++ safetyDisclaimer else response
  (response, flags)

def uncertain_phrases : List String :=
  ["might", "could", "possibly", "unsure", "unclear"]

/-- `EnhancedAIService._calculate_confidence` (lines 354-370), with the float
arithmetic modelled over `ℚ`. -/
def calculate_confidence (response : String) (safety_flags : List String) : ℚ :=
  let base_confidence : ℚ := 0.8
  let confidence_penalty : ℚ := safety_flags.length * 0.1
  let uncertainty_count : ℚ :=
    uncertain_phrases.foldl (fun n p => if occursIn response p then n + 1 else n) 0
  let uncertainty_penalty : ℚ := uncertainty_count * 0.05
  let disclaimer_bonus : ℚ :=
    if occursIn response "consult" && occursIn response "healthcare" then 0.1 else 0
  let final_confidence := max 0.1 (base_confidence - confidence_penalty - uncertainty_penalty + disclaimer_bonus)
  min 1.0 final_confidence

/-! ### JSON values and `json.loads`
(used by `DischargeInstructionsAI` in backend/app/services/ai_agent.py)

Numbers are kept as their raw lexeme, which loses nothing relevant: none of
the verified control flow compares numeric values. -/

inductive Json where
  | null
  | bool (b : Bool)
  | num (raw : String)
  | str (s : String)
  | arr (xs : List Json)
  | obj (fields : List (String × Json))
deriving BEq, Repr

/-- JSON whitespace accepted between tokens by `json.loads`. -/
def jsonWs (c : Char) : Bool := c == ' ' || c == '\t' || c == '\n' || c == '\r'

/-- Decode one JSON string body (after the opening quote), strict mode:
unescaped control characters are rejected, `\uXXXX` escapes are decoded. -/
def parseStringBody : List Char → Option (String × List Char)
  | [] => none
  | '"' :: rest => some ("", rest)
  | '\\' :: esc =>
      match esc with
      | '"' :: r => (parseStringBody r).map (fun p => (String.mk ('"' :: p.1.data), p.2))
      | '\\' :: r => (parseStringBody r).map (fun p => (String.mk ('\\' :: p.1.data), p.2))
      | '/' :: r => (parseStringBody r).map (fun p => (String.mk ('/' :: p.1.data), p.2))
      | 'b' :: r => (parseStringBody r).map (fun p => (String.mk ('\x08' :: p.1.data), p.2))
      | 'f' :: r => (parseStringBody r).map (fun p => (String.mk ('\x0c' :: p.1.data), p.2))
      | 'n' :: r => (parseStringBody r).map (fun p => (String.mk ('\n' :: p.1.data), p.2))
      | 'r' :: r => (parseStringBody r).map (fun p => (String.mk ('\r' :: p.1.data), p.2))
      | 't' :: r => (parseStringBody r).map (fun p => (String.mk ('\t' :: p.1.data), p.2))
      | 'u' :: a :: b :: c :: d :: r =>
          let isHex : Char → Bool := fun h =>
            h.isDigit || ('a' ≤ h && h ≤ 'f') || ('A' ≤ h && h ≤ 'F')
          if isHex a && isHex b && isHex c && isHex d then
            let n := [a, b, c, d].foldl (fun n h =>
              n * 16 + (if h.isDigit then h.toNat - 48
                        else if h.toNat ≥ 97 then h.toNat - 87 else h.toNat - 55)) 0
            let ch := if h : n < 0xd800 then Char.ofNatAux n (by omega) else ' '
            (parseStringBody r).map (fun p => (String.mk (ch :: p.1.data), p.2))
          else none
      | _ => none
  | c :: rest =>
      if c.toNat < 0x20 then none
      else (parseStringBody rest).map (fun p => (String.mk (c :: p.1.data), p.2))

/-- Lexeme of a JSON number: `-?(0|[1-9][0-9]*)(\.[0-9]+)?([eE][-+]?[0-9]+)?`. -/
def parseNumberLexeme (s : List Char) : Option (List Char × List Char) :=
  let (sign, s1) := match s with
    | '-' :: r => (['-'], r)
    | _ => (([] : List Char), s)
  match s1 with
  | [] => none
  | c :: _ =>
    if !c.isDigit then none
    else
      let intPart := s1.takeWhile Char.isDigit
      if intPart.length > 1 && c == '0' then none
      else
        let s2 := s1.dropWhile Char.isDigit
        let (frac, s3) := match s2 with
          | '.' :: r =>
              if (r.takeWhile Char.isDigit).isEmpty then (([] : List Char), s2)
              else ('.' :: r.takeWhile Char.isDigit, r.dropWhile Char.isDigit)
          | _ => (([] : List Char), s2)
        if s2 ≠ s3 || frac.isEmpty then
          let (ex, s4) := match s3 with
            | 'e' :: '+' :: r =>
                if (r.takeWhile Char.isDigit).isEmpty then (([] : List Char), s3)
                else ('e' :: '+' :: r.takeWhile Char.isDigit, r.dropWhile Char.isDigit)
            | 'e' :: '-' :: r =>
                if (r.takeWhile Char.isDigit).isEmpty then (([] : List Char), s3)
                else ('e' :: '-' :: r.takeWhile Char.isDigit, r.dropWhile Char.isDigit)
            | 'e' :: r =>
                if (r.takeWhile Char.isDigit).isEmpty then (([] : List Char), s3)
                else ('e' :: r.takeWhile Char.isDigit, r.dropWhile Char.isDigit)
            | 'E' :: r =>
                if (r.takeWhile Char.isDigit).isEmpty then (([] : List Char), s3)
                else ('E' :: r.takeWhile Char.isDigit, r.dropWhile Char.isDigit)
            | _ => (([] : List Char), s3)
          some (sign ++ intPart ++ frac ++ ex, s4)
        else none

/-- Python dict insertion: re-assigning an existing key keeps its position and
overwrites the value, a new key is appended. -/
def objInsert (acc : List (String × Json)) (key : String) (v : Json) :
    List (String × Json) :=
  if acc.any (fun f => f.1 == key) then
    acc.map (fun f => if f.1 == key then (key, v) else f)
  else acc ++ [(key, v)]

/-- Parser modes: a plain value, the members of an object being read, or the
elements of an array being read. -/
inductive PMode where
  | value
  | members (acc : List (String × Json))
  | elems (acc : List Json)

/-- Recursive-descent JSON parser.  Fuel decreases by one on every recursive
call and at least one input character is consumed between consecutive calls,
so `length + 1` fuel is always enough. -/
def parseJ : Nat → PMode → List Char → Option (Json × List Char)
  | 0, _, _ => none
  | fuel + 1, PMode.value, s =>
      let s := s.dropWhile jsonWs
      match s with
      | [] => none
      | '\x7b' :: r =>
          let r' := r.dropWhile jsonWs
          match r' with
          | '\x7d' :: r'' => some (Json.obj [], r'')
          | _ => parseJ fuel (PMode.members []) r
      | '[' :: r =>
          let r' := r.dropWhile jsonWs
          match r' with
          | ']' :: r'' => some (Json.arr [], r'')
          | _ => parseJ fuel (PMode.elems []) r
      | '"' :: r => (parseStringBody r).map (fun p => (Json.str p.1, p.2))
      | 't' :: r => if "rue".data.isPrefixOf r then some (Json.bool true, r.drop 3) else none
      | 'f' :: r => if "alse".data.isPrefixOf r then some (Json.bool false, r.drop 4) else none
      | 'n' :: r => if "ull".data.isPrefixOf r then some (Json.null, r.drop 3) else none
      | 'N' :: r => if "aN".data.isPrefixOf r then some (Json.num "NaN", r.drop 2) else none
      | 'I' :: r =>
          if "nfinity".data.isPrefixOf r then some (Json.num "Infinity", r.drop 7) else none
      | '-' :: 'I' :: r =>
          if "nfinity".data.isPrefixOf r then some (Json.num "-Infinity", r.drop 7) else none
      | c :: _ =>
          if c == '-' || c.isDigit then
            (parseNumberLexeme s).map (fun p => (Json.num (String.mk p.1), p.2))
          else none
  | fuel + 1, PMode.members acc, s =>
      let s := s.dropWhile jsonWs
      match s with
      | '"' :: r =>
          match parseStringBody r with
          | none => none
          | some (key, r1) =>
              match r1.dropWhile jsonWs with
              | ':' :: r2 =>
                  match parseJ fuel PMode.value r2 with
                  | none => none
                  | some (v, r3) =>
                      match r3.dropWhile jsonWs with
                      | ',' :: r4 => parseJ fuel (PMode.members (objInsert acc key v)) r4
                      | '\x7d' :: r4 => some (Json.obj (objInsert acc key v), r4)
                      | _ => none
              | _ => none
      | _ => none
  | fuel + 1, PMode.elems acc, s =>
      match parseJ fuel PMode.value s with
      | none => none
      | some (v, r1) =>
          match r1.dropWhile jsonWs with
          | ',' :: r2 => parseJ fuel (PMode.elems (acc ++ [v])) r2
          | ']' :: r2 => some (Json.arr (acc ++ [v]), r2)
          | _ => none

/-- `json.loads`: parse one document and require only whitespace after it. -/
def jsonLoads (s : String) : Option Json :=
  match parseJ (s.data.length + 1) PMode.value s.data with
  | some (v, rest) => if (rest.dropWhile jsonWs).isEmpty then some v else none
  | none => none

/-! ### DischargeInstructionsAI parsing pipeline
(backend/app/services/ai_agent.py, lines 170-280) -/

/-- The pydantic model `PersonalizedInstructions` (ai_agent.py lines 13-22).
`Dict[str, Any]` values are `List (String × Json)`, `Dict[str, str]` values
are `List (String × String)`. -/
structure PersonalizedInstructions where
  medication_schedule : List (List (String × Json))
  lifestyle_recommendations : List String
  follow_up_reminders : List (List (String × Json))
  warning_signs : List String
  activity_guidelines : List String
  diet_recommendations : List String
  wound_care_instructions : Option (List String)
  emergency_contacts : List (List (String × String))
  summary : String
deriving BEq, Repr

/-- One outbound chat-completion request; only the temperature matters for the
verified claims. -/
structure ChatCall where
  temperature : ℚ
deriving DecidableEq, Repr

/-- Python whitespace stripped by `str.strip()`, ASCII fragment. -/
def pyStripWs (c : Char) : Bool :=
  c == ' ' || c == '\t' || c == '\n' || c == '\r' || c == '\x0b' || c == '\x0c'

/-- Python `str.strip()`. -/
def pyStrip (s : String) : String :=
  String.mk (((s.data.dropWhile pyStripWs).reverse.dropWhile pyStripWs).reverse)

/-- `dict.get(key)` on a parsed JSON object. -/
def dictGet (fields : List (String × Json)) (key : String) : Option Json :=
  (fields.find? (fun f => f.1 == key)).map (fun f => f.2)

/-- `startswith('{')` on an (already stripped) string. -/
def startsWithBrace (s : String) : Bool :=
  match s.data with
  | c :: _ => c == '\x7b'
  | [] => false

/-- The fixed entry appended by `_parse_instructions` when no contact of type
`"hospital"` is present (lines 184-189).  Note its own `type` is
`"emergency"`, not `"hospital"`. -/
def hospitalContactEntry : List (String × Json) :=
  [("name", Json.str "Hospital Emergency Department"),
   ("phone", Json.str "911"),
   ("type", Json.str "emergency"),
   ("when_to_call", Json.str "Life-threatening emergencies")]

/-- Python `contact.get('type') == 'hospital'`: true exactly when the value is
the string `"hospital"`. -/
def isHospitalType : Option Json → Bool
  | some (Json.str s) => s == "hospital"
  | _ => false

/-- Lines 182-189 of `_parse_instructions`: append the fixed hospital entry
unless some contact already has `type == 'hospital'`. -/
def ensure_hospital_contact (contacts : List (List (String × Json))) :
    List (List (String × Json)) :=
  if contacts.any (fun c => isHospitalType (dictGet c "type")) then
    contacts
  else contacts ++ [hospitalContactEntry]

/-- pydantic validation of a `List[Dict[str, Any]]` field. -/
def asDictList : Json → Option (List (List (String × Json)))
  | Json.arr xs => xs.mapM (fun x => match x with
      | Json.obj fields => some fields
      | _ => none)
  | _ => none

/-- pydantic validation of a `List[str]` field. -/
def asStrList : Json → Option (List String)
  | Json.arr xs => xs.mapM (fun x => match x with
      | Json.str s => some s
      | _ => none)
  | _ => none

/-- pydantic validation of a `List[Dict[str, str]]` field. -/
def asStrDictList : Json → Option (List (List (String × String)))
  | Json.arr xs => xs.mapM (fun x => match x with
      | Json.obj fields => fields.mapM (fun f => match f.2 with
          | Json.str s => some (f.1, s)
          | _ => none)
      | _ => none)
  | _ => none

/-- The body of the `try` block of `_parse_instructions` after
`instructions_dict` has been obtained (lines 181-201): the `contact.get`
iteration (which needs a list of dicts), the hospital-entry append, and the
pydantic construction of `PersonalizedInstructions`.  `none` models an
exception escaping to the `except` handler. -/
def buildInstructions (j : Json) : Option PersonalizedInstructions :=
  match j with
  | Json.obj fields => do
      let rawContacts ← asDictList ((dictGet fields "emergency_contacts").getD (Json.arr []))
      let contacts := ensure_hospital_contact rawContacts
      let medication ← asDictList ((dictGet fields "medication_schedule").getD (Json.arr []))
      let lifestyle ← asStrList ((dictGet fields "lifestyle_recommendations").getD (Json.arr []))
      let reminders ← asDictList ((dictGet fields "follow_up_reminders").getD (Json.arr []))
      let warning ← asStrList ((dictGet fields "warning_signs").getD (Json.arr []))
      let activity ← asStrList ((dictGet fields "activity_guidelines").getD (Json.arr []))
      let diet ← asStrList ((dictGet fields "diet_recommendations").getD (Json.arr []))
      let wound ← match dictGet fields "wound_care_instructions" with
        | none => some none
        | some Json.null => some none
        | some v => (asStrList v).map some
      let ec ← asStrDictList (Json.arr (contacts.map Json.obj))
      let summary ← match dictGet fields "summary" with
        | none => some "Please follow all instructions carefully and contact your healthcare provider with any questions."
        | some (Json.str s) => some s
        | some _ => none
      pure ⟨medication, lifestyle, reminders, warning, activity, diet, wound, ec, summary⟩
  | _ => none

/-- `DischargeInstructionsAI._generate_fallback_instructions`
(lines 242-280); it ignores its `patient_data` argument. -/
def generate_fallback_instructions : PersonalizedInstructions :=
  { medication_schedule :=
      [[("name", Json.str "Please consult your discharge paperwork"),
        ("instructions", Json.str "Take medications as prescribed by your doctor")]]
    lifestyle_recommendations :=
      ["Get adequate rest and sleep",
       "Stay hydrated by drinking plenty of water",
       "Follow up with your healthcare provider as scheduled"]
    follow_up_reminders :=
      [[("type", Json.str "Primary Care"),
        ("timeframe", Json.str "1-2 weeks"),
        ("purpose", Json.str "Post-discharge check-up")]]
    warning_signs :=
      ["Severe pain that doesn't improve with medication",
       "High fever (over 101Â°F)",
       "Difficulty breathing",
       "Signs of infection at surgical site"]
    activity_guidelines :=
      ["Gradually increase activity as tolerated",
       "Avoid heavy lifting until cleared by doctor"]
    diet_recommendations :=
      ["Eat a balanced, nutritious diet",
       "Stay hydrated"]
    wound_care_instructions := none
    emergency_contacts :=
      [[("name", "Emergency Services"), ("phone", "911"), ("type", "emergency")]]
    summary := "Please follow all discharge instructions and contact your healthcare provider with any questions or concerns." }

/-- `DischargeInstructionsAI._convert_to_structured_format` (lines 208-240):
one chat call at temperature 0.1; any exception from the call or from
`json.loads` of its reply is swallowed and `{}` is returned.  The reply of the
remote model is an oracle: `Except.error` models the call raising. -/
def convert_to_structured_format (convReply : Except Unit String) : Json × List ChatCall :=
  match convReply with
  | Except.error _ => (Json.obj [], [⟨0.1⟩])
  | Except.ok content =>
      match jsonLoads content with
      | some v => (v, [⟨0.1⟩])
      | none => (Json.obj [], [⟨0.1⟩])

/-- `DischargeInstructionsAI._parse_instructions` (lines 170-206): JSON is
attempted only when the stripped reply starts with a brace, otherwise the
conversion call is made; any exception inside the `try` block falls back to
`_generate_fallback_instructions`.  Returns the instructions together with the
list of conversion chat calls that were issued. -/
def parse_instructions (instructions_text : String) (convReply : Except Unit String) :
    PersonalizedInstructions × List ChatCall :=
  let (dictRes, calls) :=
    if startsWithBrace (pyStrip instructions_text) then
      (jsonLoads instructions_text, ([] : List ChatCall))
    else
      let (j, cs) := convert_to_structured_format convReply
      (some j, cs)
  let instr :=
    match dictRes with
    | none => generate_fallback_instructions
    | some j =>
        match buildInstructions j with
        | some instr => instr
        | none => generate_fallback_instructions
  (instr, calls)

/-- The `PersonalizedInstructions` produced from an empty dict `{}` (what the
swallowed-conversion-failure path actually returns): all fields default, plus
the appended hospital entry and the default summary. -/
def emptyDictInstructions : PersonalizedInstructions :=
  { medication_schedule := []
    lifestyle_recommendations := []
    follow_up_reminders := []
    warning_signs := []
    activity_guidelines := []
    diet_recommendations := []
    wound_care_instructions := none
    emergency_contacts :=
      [[("name", "Hospital Emergency Department"), ("phone", "911"),
        ("type", "emergency"), ("when_to_call", "Life-threatening emergencies")]]
    summary := "Please follow all instructions carefully and contact your healthcare provider with any questions." }

/-! ### HTTP handlers around the AI services
(backend/app/api/endpoints.py lines 162-362 and
backend/app/api/patient_history_endpoints.py lines 148-268)

The handlers are embedded as total functions: every Python exception path is
turned into an explicit `fail` (or sentinel) result, which is how "never a
crash" is expressed.  The outcome of a remote AI call, when one would be
made, is an oracle argument (`Except.error` = the call raised). -/

inductive HttpReply (α : Type) where
  | ok (body : α)
  | fail (statusCode : Nat) (detail : String)
deriving BEq, Repr

/-- `QAResponse` (ai_agent.py lines 24-28). -/
structure QAResponse where
  question : String
  answer : String
  confidence : ℚ
  related_topics : List String
deriving BEq, Repr

/-- The JSON body returned by the enhanced Q&A endpoint (either a
`SafeQAResponse` or one of the sentinel dicts; same six keys). -/
structure EnhancedQABody where
  question : String
  answer : String
  confidence : ℚ
  safety_flags : List String
  sources : List String
  disclaimer : String
deriving BEq, Repr

/-- `POST /generate-instructions/{patient_id}` (endpoints.py lines 162-252).
`clientAvailable` is `get_ai_service().client is not None`; `aiOutcome` is the
oracle for `generate_personalized_instructions` when it is reached. -/
def generate_discharge_instructions (db : DB) (clientAvailable : Bool)
    (aiOutcome : Except Unit PersonalizedInstructions)
    (patient_id : String) (medical_record_id : Nat) :
    HttpReply PersonalizedInstructions :=
  match get_patient_by_id db patient_id with
  | none => HttpReply.fail 404 "Patient not found"
  | some _ =>
    match get_medical_record_by_id db medical_record_id with
    | none => HttpReply.fail 404 "Medical record not found for this patient"
    | some mr =>
      if mr.patient_id ≠ patient_id then
        HttpReply.fail 404 "Medical record not found for this patient"
      else
        match db.notes.filter (fun n => n.medical_record_id == medical_record_id) with
        | [] => HttpReply.fail 404 "Discharge note not found for this medical record"
        | _ :: _ =>
          if !clientAvailable then
            HttpReply.fail 503 "AI service is not available. OpenRouter API key is not configured."
          else
            match aiOutcome with
            | Except.ok instr => HttpReply.ok instr
            | Except.error _ => HttpReply.fail 500 "Error generating discharge instructions"

/-- `POST /ask-question/{patient_id}` (endpoints.py lines 254-362); the same
404 checks, then the 503 guard, then the instruction generation and the
question call (both behind the oracle). -/
def ask_question (db : DB) (clientAvailable : Bool)
    (aiOutcome : Except Unit QAResponse)
    (patient_id : String) (_question : String) (medical_record_id : Nat) :
    HttpReply QAResponse :=
  match get_patient_by_id db patient_id with
  | none => HttpReply.fail 404 "Patient not found"
  | some _ =>
    match get_medical_record_by_id db medical_record_id with
    | none => HttpReply.fail 404 "Medical record not found for this patient"
    | some mr =>
      if mr.patient_id ≠ patient_id then
        HttpReply.fail 404 "Medical record not found for this patient"
      else
        match db.notes.filter (fun n => n.medical_record_id == medical_record_id) with
        | [] => HttpReply.fail 404 "Discharge note not found for this medical record"
        | _ :: _ =>
          if !clientAvailable then
            HttpReply.fail 503 "AI service is not available. OpenRouter API key is not configured."
          else
            match aiOutcome with
            | Except.ok resp => HttpReply.ok resp
            | Except.error _ => HttpReply.fail 500 "Error processing question"

/-- The sentinel body returned by the enhanced endpoint when the AI client is
`None` (patient_history_endpoints.py lines 176-184). -/
def llmUnavailableBody (question : String) : EnhancedQABody :=
  { question := question
    answer := "LLM not available. Please try again later or contact your healthcare provider."
    confidence := 0.0
    safety_flags := ["llm_unavailable"]
    sources := ["System status"]
    disclaimer := "AI language model is currently unavailable." }

/-- The sentinel body returned when the AI call raises
(patient_history_endpoints.py lines 243-254). -/
def llmErrorBody (question : String) : EnhancedQABody :=
  { question := question
    answer := "LLM not available. Please try again later or contact your healthcare provider."
    confidence := 0.0
    safety_flags := ["llm_error"]
    sources := ["System status"]
    disclaimer := "AI language model encountered an error and is currently unavailable." }

/-- `POST /ask-question-enhanced/{patient_id}`
(patient_history_endpoints.py lines 148-268).  The request body is a
`Dict[str, str]`; a missing or empty (falsy) `question` yields 400; an absent
client yields HTTP 200 with the sentinel payload; an AI exception yields HTTP
200 with the error sentinel. -/
def ask_question_enhanced (db : DB) (clientAvailable : Bool)
    (aiOutcome : Except Unit EnhancedQABody)
    (patient_id : String) (request_body : List (String × String)) :
    HttpReply EnhancedQABody :=
  match (request_body.find? (fun f => f.1 == "question")).map (fun f => f.2) with
  | none => HttpReply.fail 400 "Question is required"
  | some question =>
    if question = "" then HttpReply.fail 400 "Question is required"
    else
      match get_patient_by_id db patient_id with
      | none => HttpReply.fail 404 "Patient not found"
      | some _ =>
        if !clientAvailable then HttpReply.ok (llmUnavailableBody question)
        else
          match aiOutcome with
          | Except.ok body => HttpReply.ok body
          | Except.error _ => HttpReply.ok (llmErrorBody question)

/-! ## Theorems -/

/-- C1: for every database state and every `PatientCreate` whose `patient_id`
collides with an existing `Patient` row, `create_patient` raises (returns the
duplicate-id error) and the database afterwards equals the database before:
no row is added and no existing row is mutated. -/
theorem create_patient_duplicate_rejected (db : DB) (pd : PatientCreate)
    (h : ∃ p ∈ db.patients, p.patient_id = pd.patient_id) :
    (∃ msg, (create_patient db pd).1 = Except.error msg) ∧
    (create_patient db pd).2 = db := by
  obtain ⟨p, hp, hid⟩ := h
  cases hf : db.patients.find? (fun q => q.patient_id == pd.patient_id) with
  | none =>
      rw [List.find?_eq_none] at hf
      exact absurd (by simpa using hid) (by simpa using hf p hp)
  | some q =>
      refine ⟨⟨"Patient with ID " ++ pd.patient_id ++ " already exists", ?_⟩, ?_⟩ <;>
        simp [create_patient, hf]

/-- Witness for C1: a concrete database holding patient `"P1"` rejects a
second registration of `"P1"` and is left unchanged. -/
theorem create_patient_duplicate_rejected_witness :
    (∃ msg, (create_patient ⟨[⟨"P1", "Ada", "Lee"⟩], [], [], 0, 0⟩ ⟨"P1", "Bob", "Kim"⟩).1 =
      Except.error msg) ∧
    (create_patient ⟨[⟨"P1", "Ada", "Lee"⟩], [], [], 0, 0⟩ ⟨"P1", "Bob", "Kim"⟩).2 =
      ⟨[⟨"P1", "Ada", "Lee"⟩], [], [], 0, 0⟩ :=
  create_patient_duplicate_rejected _ _ ⟨⟨"P1", "Ada", "Lee"⟩, by simp, rfl⟩

/-- C2: `create_medical_record` fails (and leaves the state unchanged) when
its `patient_id` references no existing patient; `create_discharge_note`
fails (and leaves the state unchanged) when its `medical_record_id` does not
identify an existing medical record belonging to the note's declared
`patient_id`; consequently every state reachable through the creation
operations satisfies the referential invariants `DbInv`. -/
theorem creation_preserves_referential_invariants :
    (∀ (db : DB) (rd : MedicalRecordCreate),
        (¬ ∃ p ∈ db.patients, p.patient_id = rd.patient_id) →
        (∃ msg, (create_medical_record db rd).1 = Except.error msg) ∧
        (create_medical_record db rd).2 = db) ∧
    (∀ (db : DB) (nd : DischargeNoteCreate),
        (¬ ∃ r ∈ db.records, r.id = nd.medical_record_id ∧ r.patient_id = nd.patient_id) →
        (∃ msg, (create_discharge_note db nd).1 = Except.error msg) ∧
        (create_discharge_note db nd).2 = db) ∧
    (∀ db : DB, Reachable db → DbInv db) := by
  refine ⟨?_, ?_, ?_⟩
  · intro db rd h
    cases hf : get_patient_by_id db rd.patient_id with
    | none =>
        refine ⟨⟨"Patient with ID " ++ rd.patient_id ++ " not found", ?_⟩, ?_⟩ <;>
          simp [create_medical_record, hf]
    | some p =>
        exact absurd ⟨p, List.mem_of_find?_eq_some hf,
          by simpa using List.find?_some hf⟩ h
  · intro db nd h
    cases hp : get_patient_by_id db nd.patient_id with
    | none =>
        refine ⟨⟨"Patient with ID " ++ nd.patient_id ++ " not found", ?_⟩, ?_⟩ <;>
          simp [create_discharge_note, hp]
    | some p =>
        cases hr : get_medical_record_by_id db nd.medical_record_id with
        | none =>
            refine ⟨⟨"Medical record not found for patient " ++ nd.patient_id, ?_⟩, ?_⟩ <;>
              simp [create_discharge_note, hp, hr]
        | some mr =>
            have hmem : mr ∈ db.records := List.mem_of_find?_eq_some hr
            have hid : mr.id = nd.medical_record_id := by
              simpa using List.find?_some hr
            have hne : mr.patient_id ≠ nd.patient_id := by
              intro he
              exact h ⟨mr, hmem, hid, he⟩
            refine ⟨⟨"Medical record not found for patient " ++ nd.patient_id, ?_⟩, ?_⟩ <;>
              simp [create_discharge_note, hp, hr, hne]
  · intro db hreach
    induction hreach with
    | init => exact ⟨by simp [emptyDB], by simp [emptyDB]⟩
    | step_patient pd _ ih =>
        rename_i db' _
        obtain ⟨ih1, ih2⟩ := ih
        cases hf : db'.patients.find? (fun q => q.patient_id == pd.patient_id) with
        | some q => simpa [create_patient, hf] using ⟨ih1, ih2⟩
        | none =>
            refine ⟨?_, ?_⟩
            · intro r hr
              obtain ⟨p, hp, he⟩ := ih1 r (by simpa [create_patient, hf] using hr)
              exact ⟨p, by simp [create_patient, hf, List.mem_append, hp], he⟩
            · intro n hn
              obtain ⟨r, hr, he⟩ := ih2 n (by simpa [create_patient, hf] using hn)
              exact ⟨r, by simpa [create_patient, hf] using hr, he⟩
    | step_record rd _ ih =>
        rename_i db' _
        obtain ⟨ih1, ih2⟩ := ih
        cases hf : get_patient_by_id db' rd.patient_id with
        | none => simpa [create_medical_record, hf] using ⟨ih1, ih2⟩
        | some p =>
            have hpmem : p ∈ db'.patients := List.mem_of_find?_eq_some hf
            have hpid : p.patient_id = rd.patient_id := by
              simpa using List.find?_some hf
            refine ⟨?_, ?_⟩
            · intro r hr
              rcases by simpa [create_medical_record, hf] using hr with hold | hnew
              · obtain ⟨q, hq, he⟩ := ih1 r hold
                exact ⟨q, by simp [create_medical_record, hf, hq], he⟩
              · exact ⟨p, by simp [create_medical_record, hf, hpmem], by simp [hnew, hpid]⟩
            · intro n hn
              obtain ⟨r, hr, he⟩ := ih2 n (by simpa [create_medical_record, hf] using hn)
              exact ⟨r, by simp [create_medical_record, hf, List.mem_append, hr], he⟩
    | step_note nd _ ih =>
        rename_i db' _
        obtain ⟨ih1, ih2⟩ := ih
        cases hp : get_patient_by_id db' nd.patient_id with
        | none => simpa [create_discharge_note, hp] using ⟨ih1, ih2⟩
        | some p =>
            cases hr : get_medical_record_by_id db' nd.medical_record_id with
            | none => simpa [create_discharge_note, hp, hr] using ⟨ih1, ih2⟩
            | some mr =>
                by_cases hne : mr.patient_id ≠ nd.patient_id
                · simpa [create_discharge_note, hp, hr, hne] using ⟨ih1, ih2⟩
                · push_neg at hne
                  have hmem : mr ∈ db'.records := List.mem_of_find?_eq_some hr
                  have hid : mr.id = nd.medical_record_id := by
                    simpa using List.find?_some hr
                  refine ⟨?_, ?_⟩
                  · intro r hrr
                    obtain ⟨q, hq, he⟩ :=
                      ih1 r (by simpa [create_discharge_note, hp, hr, hne] using hrr)
                    exact ⟨q, by simp [create_discharge_note, hp, hr, hne, hq], he⟩
                  · intro n hn
                    rcases by simpa [create_discharge_note, hp, hr, hne] using hn with hold | hnew
                    · obtain ⟨r, hrr, he⟩ := ih2 n hold
                      exact ⟨r, by simp [create_discharge_note, hp, hr, hne,
                        List.mem_append, hrr], he⟩
                    · exact ⟨mr, by simp [create_discharge_note, hp, hr, hne,
                        List.mem_append, hmem], by simp [hnew, hid, hne]⟩

/-- Witness for C2: concrete failing creations against the empty database and
the invariant at the (reachable) empty database. -/
theorem creation_preserves_referential_invariants_witness :
    ((∃ msg, (create_medical_record emptyDB ⟨"P9", "flu"⟩).1 = Except.error msg) ∧
      (create_medical_record emptyDB ⟨"P9", "flu"⟩).2 = emptyDB) ∧
    ((∃ msg, (create_discharge_note emptyDB ⟨"P9", 0, "ok"⟩).1 = Except.error msg) ∧
      (create_discharge_note emptyDB ⟨"P9", 0, "ok"⟩).2 = emptyDB) ∧
    DbInv emptyDB :=
  ⟨creation_preserves_referential_invariants.1 emptyDB ⟨"P9", "flu"⟩ (by simp [emptyDB]),
   creation_preserves_referential_invariants.2.1 emptyDB ⟨"P9", 0, "ok"⟩ (by simp [emptyDB]),
   creation_preserves_referential_invariants.2.2 emptyDB Reachable.init⟩

/-- The discharge-date field after the guarded write sequence of
`update_visit`: it changes only when the payload carries a date and the row
has none. -/
theorem applyVisitUpdate_discharge_date (v : PatientVisit) (u : PatientVisitUpdate)
    (now : Nat) :
    (applyVisitUpdate v u now).1.discharge_date =
      if truthyDate u.discharge_date && !truthyDate v.discharge_date then
        u.discharge_date
      else v.discharge_date := by
  simp only [applyVisitUpdate]
  split <;> split_ifs <;> rfl

/-- C4: for every visit whose `discharge_date` is already set and every
`PatientVisitUpdate` payload, `update_visit` returns the visit with its
`discharge_date` unchanged (the once-set discharge date is never
overwritten). -/
theorem update_visit_keeps_discharge_date (visits : List PatientVisit)
    (acts : List PatientActivity) (visit_id : Nat) (u : PatientVisitUpdate)
    (now : Nat) (v : PatientVisit) (d : Nat)
    (hfind : visits.find? (fun w => w.id == visit_id) = some v)
    (hset : v.discharge_date = some d) :
    ∃ v', (update_visit visits acts visit_id u now).1 = some v' ∧
      v'.discharge_date = some d := by
  refine ⟨(applyVisitUpdate v u now).1, ?_, ?_⟩
  · simp only [update_visit, hfind]
  · rw [applyVisitUpdate_discharge_date]
    simp [truthyDate, hset]

/-- Witness for C4: a concrete discharged visit keeps its discharge date under
an update that tries to overwrite it. -/
theorem update_visit_keeps_discharge_date_witness :
    ∃ v', (update_visit [⟨1, "P1", "V1", "discharged", some 5, none, none, none, 0⟩] []
        1 ⟨some 9, some "active", none, none, none⟩ 7).1 = some v' ∧
      v'.discharge_date = some 5 :=
  update_visit_keeps_discharge_date _ _ _ _ _ _ _ rfl rfl

/-- When a pattern matches at no scan position, the `re.sub` scan is the
identity. -/
theorem subScan_of_no_match (re : List RTok) (repl : List Char) :
    ∀ (fuel : Nat) (prev : Option Char) (s : List Char),
      hasMatch re fuel prev s = false → subScan re repl fuel prev s = s := by
  intro fuel
  induction fuel with
  | zero => intro prev s _; rfl
  | succ fuel ih =>
      intro prev s h
      cases s with
      | nil => rfl
      | cons c rest =>
          simp only [hasMatch, Bool.or_eq_false_iff] at h
          obtain ⟨h1, h2⟩ := h
          have hm : matchToks re (c :: rest) prev = none := by
            cases hmm : matchToks re (c :: rest) prev with
            | none => rfl
            | some n => rw [hmm] at h1; simp at h1
          simp only [subScan, hm]
          rw [ih (some c) rest h2]

/-- C5: `sanitize_pii` masks the phone number `555-123-4567` to
`XXX-XXX-XXXX` and a well-formed email to `[EMAIL_REDACTED]` (also inside
surrounding text), and returns any text in which none of the five PII
patterns matches anywhere unchanged. -/
theorem sanitize_pii_spec :
    sanitize_pii "555-123-4567".data = "XXX-XXX-XXXX".data ∧
    sanitize_pii "john.doe@example.com".data = "[EMAIL_REDACTED]".data ∧
    sanitize_pii "Call 555-123-4567 or email john.doe@example.com.".data =
      "Call XXX-XXX-XXXX or email [EMAIL_REDACTED].".data ∧
    (∀ t : List Char, anyPiiMatch t = false → sanitize_pii t = t) := by
  refine ⟨by decide, by decide, by decide, ?_⟩
  intro t h
  simp only [anyPiiMatch, piiRules, List.any_cons, List.any_nil,
    Bool.or_eq_false_iff] at h
  obtain ⟨h1, h2, h3, h4, h5, -⟩ := h
  simp only [sanitize_pii, piiRules, List.foldl_cons, List.foldl_nil, reSub]
  rw [subScan_of_no_match _ _ _ _ _ h1, subScan_of_no_match _ _ _ _ _ h2,
    subScan_of_no_match _ _ _ _ _ h3, subScan_of_no_match _ _ _ _ _ h4,
    subScan_of_no_match _ _ _ _ _ h5]

/-- Witness for C5: text with no PII pattern occurrence is returned
unchanged. -/
theorem sanitize_pii_spec_witness :
    sanitize_pii "take two tablets daily".data = "take two tablets daily".data :=
  sanitize_pii_spec.2.2.2 "take two tablets daily".data (by decide)

/-- C10 counterexample: `sanitize_pii` is not idempotent.  On
`"a@b.1234-5678-9012-3456"` the first pass replaces the credit-card number
(the email pattern does not match, since `.1234…` gives no alphabetic
top-level domain), producing `"a@b.XXXX-XXXX-XXXX-XXXX"`; on a second pass
the email pattern now matches `"a@b.XXXX"`, whose mask letters form a valid
domain, giving `"[EMAIL_REDACTED]-XXXX-XXXX-XXXX"`. -/
theorem sanitize_pii_not_idempotent :
    sanitize_pii (sanitize_pii "a@b.1234-5678-9012-3456".data) ≠
      sanitize_pii "a@b.1234-5678-9012-3456".data := by decide

/-- C10 amended: each replacement mask on its own contains no substring
matched by any of the five PII patterns (so every mask is a fixed point of
`sanitize_pii`); nevertheless `sanitize_pii` is not idempotent, because a
mask can combine with adjacent surviving text to form a fresh match on a
second pass. -/
theorem sanitize_pii_masks_fixed :
    (["XXX-XX-XXXX", "XXX-XXX-XXXX", "[EMAIL_REDACTED]", "XXXX-XXXX-XXXX-XXXX",
      "[ADDRESS_REDACTED]"].all
        (fun m => !anyPiiMatch m.data && (sanitize_pii m.data == m.data))) = true := by
  decide

/-- The appending loops of `validate_medical_response` collect exactly the
tagged phrases that occur, in list order. -/
theorem foldl_collect_eq_filter_map {α β : Type} (q : α → Bool) (t : α → β) :
    ∀ (l : List α) (acc : List β),
      l.foldl (fun acc p => if q p then acc ++ [t p] else acc) acc =
        acc ++ (l.filter q).map t := by
  intro l
  induction l with
  | nil => intro acc; simp
  | cons a l ih =>
      intro acc
      by_cases h : q a <;> simp [List.filter_cons, h, ih]

/-- C8: `validate_medical_response` returns one safety flag per dangerous
phrase and per overconfident claim occurring case-insensitively in the
response, appends the disclaimer exactly when that list is non-empty, and
returns the response unchanged when no such substring occurs. -/
theorem validate_medical_response_spec (response : String) :
    (validate_medical_response response).2 =
      (dangerous_phrases.filter (occursIn response)).map
        (fun p => "potentially_dangerous_advice: " ++ p) ++
      (specific_claims.filter (occursIn response)).map
        (fun p => "overconfident_claim: " ++ p) ∧
    ((validate_medical_response response).2 = [] →
      (validate_medical_response response).1 = response) ∧
    ((validate_medical_response response).2 ≠ [] →
      (validate_medical_response response).1 = response ++ safetyDisclaimer) := by
  have hflags : (validate_medical_response response).2 =
      (dangerous_phrases.filter (occursIn response)).map
        (fun p => "potentially_dangerous_advice: " ++ p) ++
      (specific_claims.filter (occursIn response)).map
        (fun p => "overconfident_claim: " ++ p) := by
    simp only [validate_medical_response]
    rw [foldl_collect_eq_filter_map, foldl_collect_eq_filter_map]
    simp
  refine ⟨hflags, ?_, ?_⟩
  · intro h
    simp only [validate_medical_response] at h ⊢
    rw [foldl_collect_eq_filter_map, foldl_collect_eq_filter_map] at h ⊢
    simp only [List.nil_append] at h ⊢
    simp [h]
  · intro h
    simp only [validate_medical_response] at h ⊢
    rw [foldl_collect_eq_filter_map, foldl_collect_eq_filter_map] at h ⊢
    simp only [List.nil_append] at h ⊢
    simp [h]

/-- Witness for C8: a response containing the overconfident claim
`"will cure"` receives exactly that flag and the appended disclaimer, applied
through the main theorem. -/
theorem validate_medical_response_spec_witness :
    (validate_medical_response "This will cure you").2 =
      ["overconfident_claim: will cure"] ∧
    (validate_medical_response "This will cure you").1 =
      "This will cure you" ++ safetyDisclaimer := by
  have h := validate_medical_response_spec "This will cure you"
  refine ⟨?_, h.2.2 ?_⟩
  · rw [h.1]; decide
  · rw [h.1]; decide

/-- The counting loop of `_calculate_confidence` counts the phrases that
occur. -/
theorem foldl_count_eq_filter_length (q : String → Bool) :
    ∀ (l : List String) (n : ℚ),
      l.foldl (fun n p => if q p then n + 1 else n) n =
        n + (l.filter q).length := by
  intro l
  induction l with
  | nil => intro n; simp
  | cons a l ih =>
      intro n
      by_cases h : q a <;> (simp [List.filter_cons, h, ih]; try ring)

/-- C9: `_calculate_confidence` returns exactly
`min 1 (max 0.1 (0.8 − 0.1·|flags| − 0.05·hedges + bonus))`, where `hedges`
counts the hedging words occurring in the lowercased response and the bonus
is `0.1` when both `"consult"` and `"healthcare"` occur; in particular the
result always lies in `[0.1, 1]`. -/
theorem calculate_confidence_spec (response : String) (safety_flags : List String) :
    calculate_confidence response safety_flags =
      min 1 (max 0.1 ((0.8 : ℚ) - safety_flags.length * 0.1
        - ((uncertain_phrases.filter (occursIn response)).length : ℚ) * 0.05
        + (if occursIn response "consult" && occursIn response "healthcare"
            then (0.1 : ℚ) else 0))) ∧
    (0.1 : ℚ) ≤ calculate_confidence response safety_flags ∧
    calculate_confidence response safety_flags ≤ 1 := by
  have heq : calculate_confidence response safety_flags =
      min 1 (max 0.1 ((0.8 : ℚ) - safety_flags.length * 0.1
        - ((uncertain_phrases.filter (occursIn response)).length : ℚ) * 0.05
        + (if occursIn response "consult" && occursIn response "healthcare"
            then (0.1 : ℚ) else 0))) := by
    simp only [calculate_confidence]
    rw [foldl_count_eq_filter_length]
    ring_nf
  refine ⟨heq, ?_, ?_⟩
  · rw [heq]
    exact le_min (by norm_num) (le_max_left _ _)
  · rw [heq]
    exact min_le_left _ _

/-- C6 counterexample: the reply `"{x"` is not parseable JSON, yet
`_parse_instructions` makes no conversion call at all (the conversion is
gated on the stripped reply starting with a brace, not on parseability):
`json.loads` raises and the hardcoded fallback is returned directly. -/
theorem parse_instructions_no_conversion_cex :
    jsonLoads "\x7bx" = none ∧
    (parse_instructions "\x7bx" (Except.ok "ignored")).2 = [] ∧
    (parse_instructions "\x7bx" (Except.ok "ignored")).1 =
      generate_fallback_instructions :=
  ⟨rfl, rfl, rfl⟩

/-- C6 amended: when the stripped reply does not start with `'{'`, exactly one
conversion call is made, at temperature `0.1`; if that conversion's reply is
itself unparseable JSON (or the call raises), the swallowed `{}` yields the
empty-dict default instructions — not the hardcoded fallback.  The hardcoded
fallback is returned, with no conversion call, when the reply starts with
`'{'` but `json.loads` fails; `_parse_instructions` itself never raises
(it is total, every error path producing one of these values). -/
theorem parse_instructions_amended :
    (∀ (text : String) (convReply : Except Unit String),
        startsWithBrace (pyStrip text) = false →
        (parse_instructions text convReply).2 = [⟨0.1⟩] ∧
        (∀ s, convReply = Except.ok s → jsonLoads s = none →
            (parse_instructions text convReply).1 = emptyDictInstructions) ∧
        (convReply = Except.error () →
            (parse_instructions text convReply).1 = emptyDictInstructions)) ∧
    (∀ (text : String) (convReply : Except Unit String),
        startsWithBrace (pyStrip text) = true →
        jsonLoads text = none →
        parse_instructions text convReply = (generate_fallback_instructions, [])) := by
  have hb : buildInstructions (Json.obj []) = some emptyDictInstructions := rfl
  constructor
  · intro text convReply h
    refine ⟨?_, ?_, ?_⟩
    · cases convReply with
      | error e => simp [parse_instructions, h, convert_to_structured_format]
      | ok s =>
          simp only [parse_instructions, h, convert_to_structured_format,
            Bool.false_eq_true, if_false]
          cases jsonLoads s <;> simp
    · intro s hs hl
      subst hs
      simp [parse_instructions, h, convert_to_structured_format, hl, hb]
    · intro hs
      subst hs
      simp [parse_instructions, h, convert_to_structured_format, hb]
  · intro text convReply h hl
    simp [parse_instructions, h, hl]

/-- Witness for C6 (amended): a non-brace reply whose conversion reply is also
unparseable produces the empty-dict default instructions after exactly one
temperature-0.1 conversion call. -/
theorem parse_instructions_amended_witness :
    (parse_instructions "not json" (Except.ok "nor this")).2 = [⟨0.1⟩] ∧
    (parse_instructions "not json" (Except.ok "nor this")).1 = emptyDictInstructions := by
  have h := parse_instructions_amended.1 "not json" (Except.ok "nor this") rfl
  exact ⟨h.1, h.2.1 "nor this" rfl rfl⟩

/-- C7 counterexample: the contact-completion step of `_parse_instructions`
is not idempotent on `emergency_contacts`: the entry it appends carries
`type = "emergency"` (not `"hospital"`), so a second application appends a
second copy. -/
theorem ensure_hospital_contact_not_idempotent :
    ensure_hospital_contact (ensure_hospital_contact []) ≠
      ensure_hospital_contact [] := by
  have h1 : ensure_hospital_contact ([] : List (List (String × Json))) =
      [hospitalContactEntry] := rfl
  have h2 : ensure_hospital_contact [hospitalContactEntry] =
      [hospitalContactEntry, hospitalContactEntry] := rfl
  rw [h1, h2]
  simp

/-- C7 amended: when no contact of type `"hospital"` is present the list is
extended with exactly one fixed entry (the `"Hospital Emergency Department"`
entry, whose own type is `"emergency"`); when a `"hospital"`-typed entry is
present the list is returned unchanged.  The operation is not idempotent
(see the counterexample), precisely because the appended entry's type is not
`"hospital"`. -/
theorem ensure_hospital_contact_amended :
    ∀ contacts : List (List (String × Json)),
      (contacts.any (fun c => isHospitalType (dictGet c "type")) = false →
        ensure_hospital_contact contacts = contacts ++ [hospitalContactEntry]) ∧
      (contacts.any (fun c => isHospitalType (dictGet c "type")) = true →
        ensure_hospital_contact contacts = contacts) := by
  intro contacts
  constructor <;> intro h <;> simp [ensure_hospital_contact, h]

/-- Witness for C7 (amended): the empty list gets exactly the one fixed entry
appended; a list already holding a `"hospital"`-typed contact is unchanged. -/
theorem ensure_hospital_contact_amended_witness :
    ensure_hospital_contact [] = [] ++ [hospitalContactEntry] ∧
    ensure_hospital_contact [[("type", Json.str "hospital")]] =
      [[("type", Json.str "hospital")]] :=
  ⟨(ensure_hospital_contact_amended []).1 rfl,
   (ensure_hospital_contact_amended [[("type", Json.str "hospital")]]).2 rfl⟩

/-- C3: with no API key configured (`client is None`), requests that pass the
resource checks reach the availability guard and get HTTP 503 from both
legacy endpoints, while the enhanced endpoint answers HTTP 200 with the
fixed sentinel payload (`"LLM not available..."`, confidence `0.0`, safety
flag `"llm_unavailable"`).  Each handler is embedded as a total function, so
no request crashes or propagates an unhandled exception. -/
theorem ai_unavailable_responses :
    (∀ (db : DB) (aiOutcome : Except Unit PersonalizedInstructions)
        (patient_id : String) (medical_record_id : Nat) (p : Patient)
        (mr : MedicalRecord),
        get_patient_by_id db patient_id = some p →
        get_medical_record_by_id db medical_record_id = some mr →
        mr.patient_id = patient_id →
        db.notes.filter (fun n => n.medical_record_id == medical_record_id) ≠ [] →
        generate_discharge_instructions db false aiOutcome patient_id medical_record_id =
          HttpReply.fail 503
            "AI service is not available. OpenRouter API key is not configured.") ∧
    (∀ (db : DB) (aiOutcome : Except Unit QAResponse)
        (patient_id question : String) (medical_record_id : Nat) (p : Patient)
        (mr : MedicalRecord),
        get_patient_by_id db patient_id = some p →
        get_medical_record_by_id db medical_record_id = some mr →
        mr.patient_id = patient_id →
        db.notes.filter (fun n => n.medical_record_id == medical_record_id) ≠ [] →
        ask_question db false aiOutcome patient_id question medical_record_id =
          HttpReply.fail 503
            "AI service is not available. OpenRouter API key is not configured.") ∧
    (∀ (db : DB) (aiOutcome : Except Unit EnhancedQABody)
        (patient_id question : String) (request_body : List (String × String))
        (p : Patient),
        (request_body.find? (fun f => f.1 == "question")).map (fun f => f.2) =
          some question →
        question ≠ "" →
        get_patient_by_id db patient_id = some p →
        ask_question_enhanced db false aiOutcome patient_id request_body =
          HttpReply.ok (llmUnavailableBody question)) := by
  refine ⟨?_, ?_, ?_⟩
  · intro db aiOutcome patient_id medical_record_id p mr hp hmr hpid hnotes
    cases hN : db.notes.filter (fun n => n.medical_record_id == medical_record_id) with
    | nil => exact absurd hN hnotes
    | cons n ns =>
        simp [generate_discharge_instructions, hp, hmr, hpid, hN]
  · intro db aiOutcome patient_id question medical_record_id p mr hp hmr hpid hnotes
    cases hN : db.notes.filter (fun n => n.medical_record_id == medical_record_id) with
    | nil => exact absurd hN hnotes
    | cons n ns =>
        simp [ask_question, hp, hmr, hpid, hN]
  · intro db aiOutcome patient_id question request_body p hq hqne hp
    simp [ask_question_enhanced, hq, hqne, hp]

/-- Witness for C3: a one-patient database with one record and note gets the
503 from both legacy endpoints and the sentinel from the enhanced one. -/
theorem ai_unavailable_responses_witness :
    generate_discharge_instructions
        ⟨[⟨"P1", "Ada", "Lee"⟩], [⟨1, "P1", "flu"⟩], [⟨1, "P1", 1, "rest"⟩], 2, 2⟩
        false (Except.error ()) "P1" 1 =
      HttpReply.fail 503
        "AI service is not available. OpenRouter API key is not configured." ∧
    ask_question
        ⟨[⟨"P1", "Ada", "Lee"⟩], [⟨1, "P1", "flu"⟩], [⟨1, "P1", 1, "rest"⟩], 2, 2⟩
        false (Except.error ()) "P1" "when can I run?" 1 =
      HttpReply.fail 503
        "AI service is not available. OpenRouter API key is not configured." ∧
    ask_question_enhanced
        ⟨[⟨"P1", "Ada", "Lee"⟩], [⟨1, "P1", "flu"⟩], [⟨1, "P1", 1, "rest"⟩], 2, 2⟩
        false (Except.error ()) "P1" [("question", "when can I run?")] =
      HttpReply.ok (llmUnavailableBody "when can I run?") :=
  ⟨ai_unavailable_responses.1 _ _ _ _ _ _ rfl rfl rfl (by decide),
   ai_unavailable_responses.2.1 _ _ _ _ _ _ _ rfl rfl rfl (by decide),
   ai_unavailable_responses.2.2 _ _ _ _ _ _ rfl (by decide) rfl⟩
